import Mathlib

/-!
Verification of the StorageSharp mock storage server
(src/StorageSharp.Tests/MockServer/mock_storage_server.py).

The server keeps an in-memory Python dict from string keys to byte blobs
(class MockStorage) and exposes it over HTTP (class StorageRequestHandler):
GET /health, GET /list, GET /read/k, POST /write/k, DELETE /delete/k.

Shallow embedding choices:
* a Python str is a `List Char`; a bytes object is a `List Nat`;
* the dict is an association list with Python dict semantics: assignment
  replaces the value in place when the key is present and appends at the
  end otherwise, `del` removes the (unique) entry, lookup finds the entry;
* every MockStorage method is state passing: it takes the storage and
  returns the new storage paired with the Python return value;
* a raised-and-caught exception is `none`;
* HTTP responses are a status code plus the JSON value passed to
  `_send_json_response` / `_send_error` (serialization is not modeled).
-/

/-- A Python str, modeled as its sequence of characters. -/
abbrev PyStr := List Char

/-- A Python bytes object, modeled as its sequence of byte values. -/
abbrev PyBytes := List Nat

/-- The contents of MockStorage._storage: a dict from str keys to bytes. -/
abbrev Storage := List (PyStr × PyBytes)

/-- Python dict assignment `m[k] = v`: replace the value of the first
(and, in a real dict, only) entry with key `k`, keeping its position;
append at the end when `k` is absent. -/
def pyDictInsert {α β : Type} [DecidableEq α] : List (α × β) → α → β → List (α × β)
  | [], k, v => [(k, v)]
  | (k0, v0) :: rest, k, v =>
      if k0 = k then (k, v) :: rest else (k0, v0) :: pyDictInsert rest k v

/-- Python dict lookup `m[k]` guarded by `k in m`: the value of the first
entry with key `k`, or `none` when absent. -/
def pyDictLookup {α β : Type} [DecidableEq α] : List (α × β) → α → Option β
  | [], _ => none
  | (k0, v0) :: rest, k => if k0 = k then some v0 else pyDictLookup rest k

/-- Python dict deletion `del m[k]`: remove the first entry with key `k`. -/
def pyDictErase {α β : Type} [DecidableEq α] : List (α × β) → α → List (α × β)
  | [], _ => []
  | (k0, v0) :: rest, k => if k0 = k then rest else (k0, v0) :: pyDictErase rest k

namespace MockStorage

/-- MockStorage.list_all: return the list of keys (insertion order). -/
def list_all (s : Storage) : Storage × List PyStr :=
  (s, s.map Prod.fst)

/-- MockStorage.read: return the stored bytes, or None when the key is
absent. -/
def read (s : Storage) (key : PyStr) : Storage × Option PyBytes :=
  (s, pyDictLookup s key)

/-- MockStorage.write: store the data under the key and return True. -/
def write (s : Storage) (key : PyStr) (data : PyBytes) : Storage × Bool :=
  (pyDictInsert s key data, true)

/-- MockStorage.delete: remove the key and return True when it is present,
otherwise return False. -/
def delete (s : Storage) (key : PyStr) : Storage × Bool :=
  if key ∈ s.map Prod.fst then (pyDictErase s key, true) else (s, false)

end MockStorage

theorem pyDictLookup_insert_self {α β : Type} [DecidableEq α]
    (m : List (α × β)) (k : α) (v : β) :
    pyDictLookup (pyDictInsert m k v) k = some v := by
  induction m with
  | nil => simp [pyDictInsert, pyDictLookup]
  | cons hd tl ih =>
      obtain ⟨k0, v0⟩ := hd
      by_cases h : k0 = k <;> simp [pyDictInsert, pyDictLookup, h, ih]

theorem pyDictLookup_insert_ne {α β : Type} [DecidableEq α]
    (m : List (α × β)) (k j : α) (v : β) (h : j ≠ k) :
    pyDictLookup (pyDictInsert m k v) j = pyDictLookup m j := by
  induction m with
  | nil => simp [pyDictInsert, pyDictLookup, Ne.symm h]
  | cons hd tl ih =>
      obtain ⟨k0, v0⟩ := hd
      by_cases h0 : k0 = k
      · subst h0
        simp [pyDictInsert, pyDictLookup, Ne.symm h]
      · by_cases h1 : k0 = j <;>
          simp [pyDictInsert, pyDictLookup, h0, h1, h, Ne.symm h, ih]

theorem pyDictLookup_erase_ne {α β : Type} [DecidableEq α]
    (m : List (α × β)) (k j : α) (h : j ≠ k) :
    pyDictLookup (pyDictErase m k) j = pyDictLookup m j := by
  induction m with
  | nil => simp [pyDictErase, pyDictLookup]
  | cons hd tl ih =>
      obtain ⟨k0, v0⟩ := hd
      by_cases h0 : k0 = k
      · subst h0
        simp [pyDictErase, pyDictLookup, Ne.symm h]
      · by_cases h1 : k0 = j <;>
          simp [pyDictErase, pyDictLookup, h0, h1, h, Ne.symm h, ih]

theorem pyDictLookup_ne_none_iff {α β : Type} [DecidableEq α]
    (m : List (α × β)) (k : α) :
    pyDictLookup m k ≠ none ↔ k ∈ m.map Prod.fst := by
  induction m with
  | nil => simp [pyDictLookup]
  | cons hd tl ih =>
      obtain ⟨k0, v0⟩ := hd
      by_cases h : k0 = k
      · subst h
        simp [pyDictLookup]
      · simp only [pyDictLookup, if_neg h, List.map_cons, List.mem_cons]
        rw [ih]
        constructor
        · exact fun hm => Or.inr hm
        · rintro (rfl | hm)
          · exact absurd rfl h
          · exact hm

theorem pyDictLookup_erase_self {α β : Type} [DecidableEq α]
    (m : List (α × β)) (k : α) (hnd : (m.map Prod.fst).Nodup) :
    pyDictLookup (pyDictErase m k) k = none := by
  induction m with
  | nil => simp [pyDictErase, pyDictLookup]
  | cons hd tl ih =>
      obtain ⟨k0, v0⟩ := hd
      simp only [List.map_cons, List.nodup_cons] at hnd
      by_cases h : k0 = k
      · subst h
        simp only [pyDictErase, if_pos rfl]
        rw [← Option.not_isSome_iff_eq_none]
        intro hsome
        exact hnd.1 ((pyDictLookup_ne_none_iff tl k0).1
          (Option.isSome_iff_ne_none.1 hsome))
      · simp [pyDictErase, pyDictLookup, h, ih hnd.2]

theorem mem_map_fst_erase {α β : Type} [DecidableEq α]
    (m : List (α × β)) (k : α) (hnd : (m.map Prod.fst).Nodup) :
    k ∉ (pyDictErase m k).map Prod.fst := by
  intro hmem
  have := (pyDictLookup_ne_none_iff (pyDictErase m k) k).2 hmem
  exact this (pyDictLookup_erase_self m k hnd)

/-!
Base64. `_handle_write` calls `base64.b64decode(data_str)` with the default
`validate=False`: the input string is encoded as ASCII (a non-ASCII
character raises), characters outside the alphabet and outside padding are
silently discarded, a completed padding group ends decoding, and at the end
an unfinished group of 1, 2 or 3 data characters raises. This mirrors
CPython's `binascii.a2b_base64` in non-strict mode. -/

/-- Value of a character in the standard Base64 alphabet, `none` for every
other character. -/
def b64table (c : Char) : Option Nat :=
  if 'A' ≤ c ∧ c ≤ 'Z' then some (c.toNat - 65)
  else if 'a' ≤ c ∧ c ≤ 'z' then some (c.toNat - 97 + 26)
  else if '0' ≤ c ∧ c ≤ '9' then some (c.toNat - 48 + 52)
  else if c = '+' then some 62
  else if c = '/' then some 63
  else none

/-- Main loop of `binascii.a2b_base64` (non-strict): `quadPos` is the
position inside the current 4-character group, `leftchar` the pending bits,
`pads` the number of padding characters seen in the current group.
`none` models a raised `binascii.Error`. -/
def b64decodeAux : List Char → Nat → Nat → Nat → Option (List Nat)
  | [], quadPos, _, _ => if quadPos = 0 then some [] else none
  | c :: rest, quadPos, leftchar, pads =>
      if c = '=' then
        if 2 ≤ quadPos ∧ 4 ≤ quadPos + (pads + 1) then some []
        else if 2 ≤ quadPos then b64decodeAux rest quadPos leftchar (pads + 1)
        else b64decodeAux rest quadPos leftchar pads
      else
        match b64table c with
        | none => b64decodeAux rest quadPos leftchar pads
        | some d =>
            match quadPos with
            | 0 => b64decodeAux rest 1 d 0
            | 1 => (b64decodeAux rest 2 (d % 16) 0).map
                     (fun r => (leftchar * 4 + d / 16) :: r)
            | 2 => (b64decodeAux rest 3 (d % 4) 0).map
                     (fun r => (leftchar * 16 + d / 4) :: r)
            | _ => (b64decodeAux rest 0 0 0).map
                     (fun r => (leftchar * 64 + d) :: r)

/-- `base64.b64decode` on a str argument: encode as ASCII, then run the
non-strict decoder. `none` models a raised exception. -/
def b64decode (s : PyStr) : Option PyBytes :=
  if s.all (fun c => c.toNat < 128) then b64decodeAux s 0 0 0 else none

/-- The standard Base64 alphabet in order. -/
def b64chars : List Char :=
  "ABCDEFGHIJKLMNOPQRSTUVWXYZabcdefghijklmnopqrstuvwxyz0123456789+/".toList

/-- Character for a 6-bit value. -/
def b64char (n : Nat) : Char := b64chars.getD n 'A'

/-- `base64.b64encode`: encode 3 bytes as 4 alphabet characters, padding a
final group of 1 or 2 bytes with `=`. Used by `_handle_read`. -/
def b64encode : PyBytes → PyStr
  | [] => []
  | [a] => [b64char (a / 4 % 64), b64char (a % 4 * 16), '=', '=']
  | [a, b] => [b64char (a / 4 % 64), b64char (a % 4 * 16 + b / 16 % 16),
               b64char (b % 16 * 4), '=']
  | a :: b :: c :: rest =>
      b64char (a / 4 % 64) :: b64char (a % 4 * 16 + b / 16 % 16) ::
      b64char (b % 16 * 4 + c / 64 % 4) :: b64char (c % 64) :: b64encode rest

/-!
JSON. `_handle_write` parses the request body with `json.loads`. The model
below covers the subset exercised by the server's contract: objects,
arrays, strings with the simple escapes, non-negative integer literals,
`null`, `true`, `false`, and surrounding whitespace. Duplicate object keys
keep the last value, as in Python. `none` models a raised exception. -/

/-- A parsed JSON value. -/
inductive Json where
  | null
  | bool (b : Bool)
  | num (n : Nat)
  | str (s : PyStr)
  | arr (elems : List Json)
  | obj (members : List (PyStr × Json))

/-- Drop leading JSON whitespace. -/
def skipWs : List Char → List Char
  | [] => []
  | c :: rest =>
      if c = ' ' ∨ c = '\t' ∨ c = '\n' ∨ c = '\r' then skipWs rest
      else c :: rest

/-- Translate the character after a backslash in a JSON string. -/
def escChar (c : Char) : Option Char :=
  if c = '"' then some '"'
  else if c = '\\' then some '\\'
  else if c = '/' then some '/'
  else if c = 'b' then some (Char.ofNat 8)
  else if c = 'f' then some (Char.ofNat 12)
  else if c = 'n' then some '\n'
  else if c = 'r' then some '\r'
  else if c = 't' then some '\t'
  else none

/-- Parse the rest of a JSON string, the opening quote already consumed;
returns the string and the remaining input. -/
def parseStringBody : List Char → Option (PyStr × List Char)
  | [] => none
  | c :: rest =>
      if c = '"' then some ([], rest)
      else if c = '\\' then
        match rest with
        | [] => none
        | e :: rest2 =>
            match escChar e with
            | none => none
            | some ec => (parseStringBody rest2).map (fun p => (ec :: p.1, p.2))
      else (parseStringBody rest).map (fun p => (c :: p.1, p.2))

/-- Split a leading run of decimal digits from the input. -/
def takeDigits : List Char → List Char × List Char
  | [] => ([], [])
  | c :: rest =>
      if c.isDigit then
        let p := takeDigits rest
        (c :: p.1, p.2)
      else ([], c :: rest)

/-- Numeric value of a digit string. -/
def digitsToNat (ds : List Char) : Nat :=
  ds.foldl (fun a c => a * 10 + (c.toNat - 48)) 0

mutual

/-- Parse one JSON value; the fuel bounds the nesting depth. -/
def parseValue : Nat → List Char → Option (Json × List Char)
  | 0, _ => none
  | fuel + 1, input =>
      match skipWs input with
      | [] => none
      | c :: rest =>
          if c = '"' then (parseStringBody rest).map (fun p => (Json.str p.1, p.2))
          else if c = '\x7b' then
            match skipWs rest with
            | [] => none
            | c2 :: r2 =>
                if c2 = '\x7d' then some (Json.obj [], r2)
                else parseMembers fuel (c2 :: r2) []
          else if c = '[' then
            match skipWs rest with
            | [] => none
            | c2 :: r2 =>
                if c2 = ']' then some (Json.arr [], r2)
                else parseElems fuel (c2 :: r2) []
          else if c = 'n' then
            match rest with
            | 'u' :: 'l' :: 'l' :: r => some (Json.null, r)
            | _ => none
          else if c = 't' then
            match rest with
            | 'r' :: 'u' :: 'e' :: r => some (Json.bool true, r)
            | _ => none
          else if c = 'f' then
            match rest with
            | 'a' :: 'l' :: 's' :: 'e' :: r => some (Json.bool false, r)
            | _ => none
          else if c.isDigit then
            let p := takeDigits (c :: rest)
            some (Json.num (digitsToNat p.1), p.2)
          else none

/-- Parse the members of a JSON object, the opening brace consumed and at
least one member expected; duplicate keys keep the last value. -/
def parseMembers : Nat → List Char → List (PyStr × Json) →
    Option (Json × List Char)
  | 0, _, _ => none
  | fuel + 1, input, acc =>
      match skipWs input with
      | [] => none
      | c :: rest =>
          if c = '"' then
            match parseStringBody rest with
            | none => none
            | some (key, r1) =>
                match skipWs r1 with
                | [] => none
                | c2 :: r2 =>
                    if c2 = ':' then
                      match parseValue fuel r2 with
                      | none => none
                      | some (v, r3) =>
                          match skipWs r3 with
                          | [] => none
                          | c3 :: r4 =>
                              if c3 = ',' then
                                parseMembers fuel r4 (pyDictInsert acc key v)
                              else if c3 = '\x7d' then
                                some (Json.obj (pyDictInsert acc key v), r4)
                              else none
                    else none
          else none

/-- Parse the elements of a JSON array, the opening bracket consumed and at
least one element expected. -/
def parseElems : Nat → List Char → List Json → Option (Json × List Char)
  | 0, _, _ => none
  | fuel + 1, input, acc =>
      match parseValue fuel input with
      | none => none
      | some (v, r1) =>
          match skipWs r1 with
          | [] => none
          | c :: r2 =>
              if c = ',' then parseElems fuel r2 (acc ++ [v])
              else if c = ']' then some (Json.arr (acc ++ [v]), r2)
              else none

end

/-- `json.loads`: parse one value and require only whitespace after it. -/
def jsonLoads (body : List Char) : Option Json :=
  match parseValue (body.length + 1) body with
  | some (j, rest) => if skipWs rest = [] then some j else none
  | none => none

/-!
The HTTP handler. A response is the status code passed to `send_response`
together with the JSON value serialized into the body; header emission and
serialization are not modeled. -/

/-- An HTTP response: status code and JSON body. -/
structure HttpResponse where
  status : Nat
  body : Json

namespace StorageRequestHandler

/-- `_send_json_response`: always status 200 with the given JSON body. -/
def _send_json_response (data : Json) : HttpResponse := ⟨200, data⟩

/-- `_send_error`: the given status code with body
`error: message, code: status`. -/
def _send_error (code : Nat) (message : PyStr) : HttpResponse :=
  ⟨code, Json.obj [("error".toList, Json.str message), ("code".toList, Json.num code)]⟩

/-- The message `Key '<key>' not found` (39 is the ASCII quote). -/
def keyNotFoundMsg (key : PyStr) : PyStr :=
  "Key ".toList ++ [Char.ofNat 39] ++ key ++ [Char.ofNat 39] ++ " not found".toList

/-- `_handle_read` without its initial 500 ms sleep (the sleep, which has
no effect on the response, is modeled by the event traces below): read the
key; 404 when absent, otherwise 200 with the Base64-encoded data and its
byte length. -/
def _handle_read (s : Storage) (key : PyStr) : HttpResponse :=
  match (MockStorage.read s key).2 with
  | none => _send_error 404 (keyNotFoundMsg key)
  | some data =>
      _send_json_response (Json.obj
        [("key".toList, Json.str key),
         ("data".toList, Json.str (b64encode data)),
         ("size".toList, Json.num data.length)])

/-- `request_data.get('data', '')` followed by its use as the argument of
`base64.b64decode`: on a non-object `.get` raises AttributeError, an absent
field defaults to the empty string, and a non-string field makes
`b64decode` raise TypeError. `none` models a raised exception. -/
def getDataField (j : Json) : Option PyStr :=
  match j with
  | Json.obj members =>
      match pyDictLookup members "data".toList with
      | none => some []
      | some (Json.str s) => some s
      | some _ => none
  | _ => none

/-- `_handle_write`: 400 on an empty body; otherwise parse JSON, take the
`data` field (defaulting to the empty string), Base64-decode it and store
the bytes; any exception on that path yields 400 (the real message
interpolates the exception text after `Invalid request data: `, which is
not modeled); a True from the store yields 200 with the byte length, a
False would yield 500. -/
def _handle_write (s : Storage) (key : PyStr) (body : List Char) :
    HttpResponse × Storage :=
  if body.length = 0 then (_send_error 400 "No data provided".toList, s)
  else
    match jsonLoads body with
    | none => (_send_error 400 "Invalid request data".toList, s)
    | some j =>
        match getDataField j with
        | none => (_send_error 400 "Invalid request data".toList, s)
        | some dataStr =>
            match b64decode dataStr with
            | none => (_send_error 400 "Invalid request data".toList, s)
            | some data =>
                let r := MockStorage.write s key data
                if r.2 then
                  (_send_json_response (Json.obj
                    [("key".toList, Json.str key),
                     ("status".toList, Json.str "success".toList),
                     ("size".toList, Json.num data.length)]), r.1)
                else (_send_error 500 "Failed to write data".toList, r.1)

/-- `_handle_delete`: 200 with status `deleted` when the key was removed,
404 when it was absent. -/
def _handle_delete (s : Storage) (key : PyStr) : HttpResponse × Storage :=
  let r := MockStorage.delete s key
  if r.2 then
    (_send_json_response (Json.obj
      [("key".toList, Json.str key),
       ("status".toList, Json.str "deleted".toList)]), r.1)
  else (_send_error 404 (keyNotFoundMsg key), r.1)

/-- Routing target of a request, with the key handed to the Store
operation. `do_GET` checks `/health` and `/list` by equality, then the
`/read/` path by its 6-character fixed-length slice `path[6:]`; `do_POST`
slices `path[7:]` after `/write/`; `do_DELETE` slices `path[8:]` after
`/delete/`. The path here is the path component after `urlparse`. -/
inductive Route where
  | health
  | keyList
  | read (key : PyStr)
  | write (key : PyStr)
  | delete (key : PyStr)
  | notFound

/-- Routing of `do_GET`. -/
def do_GET_route (path : List Char) : Route :=
  if path = "/health".toList then Route.health
  else if path = "/list".toList then Route.keyList
  else if "/read/".toList.isPrefixOf path then Route.read (path.drop 6)
  else Route.notFound

/-- Routing of `do_POST`. -/
def do_POST_route (path : List Char) : Route :=
  if "/write/".toList.isPrefixOf path then Route.write (path.drop 7)
  else Route.notFound

/-- Routing of `do_DELETE`. -/
def do_DELETE_route (path : List Char) : Route :=
  if "/delete/".toList.isPrefixOf path then Route.delete (path.drop 8)
  else Route.notFound

end StorageRequestHandler

/-!
Event traces. The timing-relevant steps of the read path, in program
order: `_handle_read` first runs `time.sleep(0.5)` and only then calls
`MockStorage.read`, which acquires the lock, accesses the dict and
releases the lock (the `with self._lock` block). -/

/-- One timing-relevant step of request processing. -/
inductive Event where
  | sleepMs (ms : Nat)
  | lockAcquire
  | lockRelease
  | dictAccess
  | respond
deriving DecidableEq

/-- Steps of `MockStorage.read`: the dict access inside the lock. -/
def MockStorage.readEvents : List Event :=
  [Event.lockAcquire, Event.dictAccess, Event.lockRelease]

/-- Steps of `_handle_read`: the 500 ms sleep, then the store read, then
the response. -/
def handleReadEvents : List Event :=
  Event.sleepMs 500 :: (MockStorage.readEvents ++ [Event.respond])

/-- Number of locks held when the step at index `i` starts. -/
def locksHeldAt (tr : List Event) (i : Nat) : Nat :=
  (tr.take i).count Event.lockAcquire - (tr.take i).count Event.lockRelease

/-- The request body consisting of the two characters of an empty JSON
object. -/
def emptyObjBody : List Char := "\x7b\x7d".toList

/-- A request body whose `data` field is a string of four characters that
are all outside the Base64 alphabet. -/
def c3Body : List Char := "\x7b\"data\": \"!!!!\"\x7d".toList

/-- A request body whose `data` field is a single Base64 alphabet
character, on which `base64.b64decode` raises. -/
def c3WitnessBody : List Char := "\x7b\"data\": \"A\"\x7d".toList

/-- Membership in the Base64 alphabet extended by the padding character. -/
def isBase64Char (c : Char) : Bool := (b64table c).isSome || c = '='

/-- Claim C1: for every key and every byte payload (the empty payload
included), MockStorage.write followed by MockStorage.read with no
intervening mutation returns exactly the written payload. -/
theorem claim_C1_roundtrip (s : Storage) (k : PyStr) (v : PyBytes) :
    (MockStorage.read (MockStorage.write s k v).1 k).2 = some v := by
  simpa [MockStorage.read, MockStorage.write] using pyDictLookup_insert_self s k v

/-- Claim C2 is refuted at a concrete input: a POST to `/write/k` whose
body is the two-character empty JSON object is answered with status 200,
not 400, and the previously empty store is modified. -/
theorem claim_C2_counterexample :
    (StorageRequestHandler._handle_write [] ['k'] emptyObjBody).1.status = 200 ∧
    (StorageRequestHandler._handle_write [] ['k'] emptyObjBody).2 ≠ ([] : Storage) :=
  ⟨rfl, by decide⟩

/-- Claim C2 amended: for every store and key, a POST `/write/k` request
whose body is the empty JSON object is answered with status 200, body
`key, status success, size 0`, and the store afterwards maps the key to
the empty payload (the absent `data` field defaults to the empty string,
which Base64-decodes to the empty byte sequence). -/
theorem claim_C2_amended (s : Storage) (k : PyStr) :
    StorageRequestHandler._handle_write s k emptyObjBody =
      (⟨200, Json.obj [("key".toList, Json.str k),
                       ("status".toList, Json.str "success".toList),
                       ("size".toList, Json.num 0)]⟩,
       pyDictInsert s k []) ∧
    (MockStorage.read (StorageRequestHandler._handle_write s k emptyObjBody).2 k).2 =
      some ([] : PyBytes) := by
  refine ⟨rfl, ?_⟩
  simpa [MockStorage.read] using pyDictLookup_insert_self s k ([] : PyBytes)

/-- Claim C3 is refuted at a concrete input: the body of a POST to
`/write/k` carries a `data` field of four characters all outside the
Base64 alphabet (hence not valid Base64), yet the handler answers 200,
not 400, and modifies the previously empty store: `b64decode` with its
default `validate=False` silently discards the invalid characters. -/
theorem claim_C3_counterexample :
    jsonLoads c3Body = some (Json.obj [("data".toList, Json.str "!!!!".toList)]) ∧
    "!!!!".toList.all (fun c => !(isBase64Char c)) = true ∧
    (StorageRequestHandler._handle_write [] ['k'] c3Body).1.status = 200 ∧
    (StorageRequestHandler._handle_write [] ['k'] c3Body).2 ≠ ([] : Storage) :=
  ⟨rfl, rfl, rfl, by decide⟩

/-- Claim C3 amended: the handler answers 400 and leaves the store
unchanged exactly when processing the `data` string raises, that is when
the lenient decoder fails (a group of 1, 2 or 3 data characters left at
the end, or a non-ASCII character); invalid characters alone are
discarded rather than rejected. -/
theorem claim_C3_amended (s : Storage) (key : PyStr) (body : List Char)
    (j : Json) (ds : PyStr)
    (h1 : jsonLoads body = some j)
    (h2 : StorageRequestHandler.getDataField j = some ds)
    (h3 : b64decode ds = none) :
    (StorageRequestHandler._handle_write s key body).1.status = 400 ∧
    (StorageRequestHandler._handle_write s key body).2 = s := by
  unfold StorageRequestHandler._handle_write
  by_cases hb : body.length = 0
  · rw [List.length_eq_zero] at hb
    subst hb
    exact Option.noConfusion h1
  · rw [if_neg hb]
    simp only [h1, h2, h3]
    exact ⟨rfl, trivial⟩

/-- Witness for the amended claim C3: the body with `data` equal to the
single character A makes the decoder raise, so the write of that body to
the empty store is answered 400 and stores nothing. -/
theorem claim_C3_witness :
    (StorageRequestHandler._handle_write [] ['k'] c3WitnessBody).1.status = 400 ∧
    (StorageRequestHandler._handle_write [] ['k'] c3WitnessBody).2 = ([] : Storage) :=
  claim_C3_amended [] ['k'] c3WitnessBody
    (Json.obj [("data".toList, Json.str ['A'])]) ['A'] rfl rfl rfl

/-- Claim C4: for every well-formed store (keys unique, as in a Python
dict) and key present in it, MockStorage.delete returns True, a
subsequent MockStorage.read returns None, and list_all no longer contains
the key. -/
theorem claim_C4_delete_removes (s : Storage) (k : PyStr)
    (hnd : ((MockStorage.list_all s).2).Nodup)
    (hmem : (MockStorage.read s k).2 ≠ none) :
    (MockStorage.delete s k).2 = true ∧
    (MockStorage.read (MockStorage.delete s k).1 k).2 = none ∧
    k ∉ (MockStorage.list_all (MockStorage.delete s k).1).2 := by
  have hk : k ∈ s.map Prod.fst := (pyDictLookup_ne_none_iff s k).1 hmem
  have hd : MockStorage.delete s k = (pyDictErase s k, true) := by
    simp [MockStorage.delete, hk]
  refine ⟨by rw [hd], ?_, ?_⟩
  · rw [hd]
    exact pyDictLookup_erase_self s k hnd
  · rw [hd]
    exact mem_map_fst_erase s k hnd

/-- Witness for claim C4 on a one-entry store. -/
theorem claim_C4_witness :
    (MockStorage.delete [(['a'], [1])] ['a']).2 = true ∧
    (MockStorage.read (MockStorage.delete [(['a'], [1])] ['a']).1 ['a']).2 = none ∧
    ['a'] ∉ (MockStorage.list_all (MockStorage.delete [(['a'], [1])] ['a']).1).2 :=
  claim_C4_delete_removes [(['a'], [1])] ['a'] (by decide) (by decide)

/-- Claim C5: writing a key twice leaves exactly the second payload
readable, and the read response reports status 200 with the Base64
encoding of the second payload and its byte length as size. -/
theorem claim_C5_overwrite (s : Storage) (k : PyStr) (v1 v2 : PyBytes) :
    (MockStorage.read (MockStorage.write (MockStorage.write s k v1).1 k v2).1 k).2 =
      some v2 ∧
    StorageRequestHandler._handle_read
        (MockStorage.write (MockStorage.write s k v1).1 k v2).1 k =
      ⟨200, Json.obj [("key".toList, Json.str k),
                      ("data".toList, Json.str (b64encode v2)),
                      ("size".toList, Json.num v2.length)]⟩ := by
  have h : (MockStorage.read
      (MockStorage.write (MockStorage.write s k v1).1 k v2).1 k).2 = some v2 :=
    pyDictLookup_insert_self (pyDictInsert s k v1) k v2
  refine ⟨h, ?_⟩
  unfold StorageRequestHandler._handle_read
  rw [h]
  rfl

/-- Claim C6: deleting a key absent from the store returns False and
leaves the store unchanged, and so does every repetition of the call. -/
theorem claim_C6_idempotent_delete (s : Storage) (k : PyStr)
    (h : (MockStorage.read s k).2 = none) :
    MockStorage.delete s k = (s, false) ∧
    MockStorage.delete (MockStorage.delete s k).1 k = (s, false) := by
  have hk : k ∉ s.map Prod.fst := by
    intro hm
    exact ((pyDictLookup_ne_none_iff s k).2 hm) h
  have h1 : MockStorage.delete s k = (s, false) := by
    simp [MockStorage.delete, hk]
  refine ⟨h1, ?_⟩
  rw [h1]
  exact h1

/-- Witness for claim C6 on the empty store. -/
theorem claim_C6_witness :
    MockStorage.delete [] ['x'] = ([], false) ∧
    MockStorage.delete (MockStorage.delete [] ['x']).1 ['x'] = ([], false) :=
  claim_C6_idempotent_delete [] ['x'] rfl

/-- Claim C7: a read of a key absent from the store is answered 404 with
body `error: Key '<k>' not found, code: 404`. -/
theorem claim_C7_read_missing (s : Storage) (k : PyStr)
    (h : (MockStorage.read s k).2 = none) :
    StorageRequestHandler._handle_read s k =
      ⟨404, Json.obj
        [("error".toList, Json.str (StorageRequestHandler.keyNotFoundMsg k)),
         ("code".toList, Json.num 404)]⟩ := by
  unfold StorageRequestHandler._handle_read
  rw [h]
  rfl

/-- Witness for claim C7, the concrete scenario of the spec: reading the
key `missing` on the empty store. -/
theorem claim_C7_witness :
    (MockStorage.read ([] : Storage) "missing".toList).2 = none ∧
    StorageRequestHandler._handle_read [] "missing".toList =
      ⟨404, Json.obj
        [("error".toList,
          Json.str (StorageRequestHandler.keyNotFoundMsg "missing".toList)),
         ("code".toList, Json.num 404)]⟩ :=
  ⟨rfl, claim_C7_read_missing [] "missing".toList rfl⟩

theorem isPrefixOf_append_self (p s : List Char) : p.isPrefixOf (p ++ s) = true := by
  induction p with
  | nil => simp [List.isPrefixOf]
  | cons a as ih => simp [List.isPrefixOf, ih]

/-- Claim C8: for every suffix, the key passed on by the router is exactly
the remainder of the path after the fixed-length prefix, verbatim,
embedded slashes included, with no decoding or normalization. -/
theorem claim_C8_key_extraction (k : PyStr) :
    StorageRequestHandler.do_GET_route ("/read/".toList ++ k) = .read k ∧
    StorageRequestHandler.do_POST_route ("/write/".toList ++ k) = .write k ∧
    StorageRequestHandler.do_DELETE_route ("/delete/".toList ++ k) = .delete k := by
  refine ⟨?_, ?_, ?_⟩
  · unfold StorageRequestHandler.do_GET_route
    simp [isPrefixOf_append_self]
  · unfold StorageRequestHandler.do_POST_route
    simp [isPrefixOf_append_self]
  · unfold StorageRequestHandler.do_DELETE_route
    simp [isPrefixOf_append_self]

/-- Claim C9: in the read path, the 500 ms sleep is the first step, it
happens strictly before the lock acquisition and the dict access, no lock
is held while it runs, and no sleep occurs inside MockStorage.read (so
the delay is entirely outside the exclusive-access region). -/
theorem claim_C9_delay_outside_lock :
    handleReadEvents.head? = some (Event.sleepMs 500) ∧
    handleReadEvents.indexOf (Event.sleepMs 500) <
      handleReadEvents.indexOf Event.lockAcquire ∧
    handleReadEvents.indexOf (Event.sleepMs 500) <
      handleReadEvents.indexOf Event.dictAccess ∧
    locksHeldAt handleReadEvents (handleReadEvents.indexOf (Event.sleepMs 500)) = 0 ∧
    ∀ ms, Event.sleepMs ms ∉ MockStorage.readEvents := by
  refine ⟨rfl, by decide, by decide, by decide, fun ms => ?_⟩
  simp [MockStorage.readEvents]

/-- Claim C10: writes and deletes of one key do not change the value read
at any other key, and read and list_all return the store state unchanged. -/
theorem claim_C10_frame (s : Storage) (k j : PyStr) (v : PyBytes) (h : j ≠ k) :
    (MockStorage.read (MockStorage.write s k v).1 j).2 = (MockStorage.read s j).2 ∧
    (MockStorage.read (MockStorage.delete s k).1 j).2 = (MockStorage.read s j).2 ∧
    (MockStorage.read s k).1 = s ∧
    (MockStorage.list_all s).1 = s := by
  refine ⟨pyDictLookup_insert_ne s k j v h, ?_, rfl, rfl⟩
  by_cases hk : k ∈ s.map Prod.fst
  · have hd : MockStorage.delete s k = (pyDictErase s k, true) := by
      simp [MockStorage.delete, hk]
    rw [hd]
    exact pyDictLookup_erase_ne s k j h
  · have hd : MockStorage.delete s k = (s, false) := by
      simp [MockStorage.delete, hk]
    rw [hd]

/-- Witness for claim C10 with two distinct concrete keys. -/
theorem claim_C10_witness :
    (MockStorage.read (MockStorage.write [(['b'], [2])] ['a'] [1]).1 ['b']).2 =
      (MockStorage.read [(['b'], [2])] ['b']).2 ∧
    (MockStorage.read (MockStorage.delete [(['b'], [2])] ['a']).1 ['b']).2 =
      (MockStorage.read [(['b'], [2])] ['b']).2 ∧
    (MockStorage.read [(['b'], [2])] ['a']).1 = [(['b'], [2])] ∧
    (MockStorage.list_all [(['b'], [2])]).1 = [(['b'], [2])] :=
  claim_C10_frame [(['b'], [2])] ['a'] ['b'] [1] (by decide)
